import Mathlib

/-!
Verification of the OrangeHRM Selenium test-suite repository.

Shallow embedding of the repository's page objects (`pages/login_page.py`),
driver provisioning (`utils/driver_manager.py`) and test lifecycle
(`tests/base_test.py`).  Element lookup, clicking and configuration come from
`pages/base_page.py` and `config/config.py`, which are referenced by the
sources but not present; those pieces are modelled from the spec, as marked
on each definition.
-/

/-- The element locators of the login page (`constants/selectors.py`,
referenced as `LoginPageSelectors`); their CSS values are irrelevant to the
claims, so locators are opaque identifiers. -/
inductive Selector
  | USERNAME
  | PASSWORD
  | LOGIN_BUTTON
  | ERROR_MESSAGE
  | REQUIRED_ERROR
  | DASHBOARD
  | USER_DROPDOWN
  | LOGOUT_LINK
deriving DecidableEq

/-- A located DOM element; only its visible text matters to the claims.
A Python `WebElement` object is always truthy, whatever its text. -/
structure Element where
  text : String
deriving DecidableEq

/-- Modelled from the spec: outcome of the Page Object Base lookup
`find(locator, timeout) -> ElementHandle | NotFound` (`pages/base_page.py`
is not in the sources).  A lookup either yields an element handle, yields a
falsy not-found result, raises `NoSuchElementException`, or raises some
other exception (a driver fault). -/
inductive FindOutcome
  | found (e : Element)
  | absent
  | raisedNoSuch
  | raisedOther
deriving DecidableEq

/-- The rendered page as the login-page object can observe it: what each
locator lookup would produce in this state. -/
structure PageState where
  find : Selector → FindOutcome

/-- Modelled from the spec: `BasePage.find_element` is a read-only query of
the rendered page — it returns the outcome the page state records for the
locator and leaves the page unchanged. -/
def find_element (sel : Selector) (s : PageState) : FindOutcome × PageState :=
  (s.find sel, s)

/-- The function `LoginPage.get_error_message` (`pages/login_page.py` lines 86-110):
look up the general error banner; if the lookup yields a truthy element,
return its text; if it yields a falsy result, look up the required-field
error and return its text when truthy, else the empty string; any raised
`NoSuchElementException` or other exception is caught and yields the empty
string. -/
def get_error_message (s : PageState) : String × PageState :=
  match find_element Selector.ERROR_MESSAGE s with
  | (FindOutcome.found e, s1) => (e.text, s1)
  | (FindOutcome.absent, s1) =>
    match find_element Selector.REQUIRED_ERROR s1 with
    | (FindOutcome.found e, s2) => (e.text, s2)
    | (FindOutcome.absent, s2) => ("", s2)
    | (FindOutcome.raisedNoSuch, s2) => ("", s2)
    | (FindOutcome.raisedOther, s2) => ("", s2)
  | (FindOutcome.raisedNoSuch, s1) => ("", s1)
  | (FindOutcome.raisedOther, s1) => ("", s1)

/-- The function `LoginPage.is_login_successful` (`pages/login_page.py` lines 112-132):
false when `get_error_message` returns a truthy (non-empty) string, else
the truthiness of the dashboard-element lookup; raised
`NoSuchElementException` or any other exception yields false. -/
def is_login_successful (s : PageState) : Bool × PageState :=
  match get_error_message s with
  | (msg, s1) =>
    if msg ≠ "" then (false, s1)
    else
      match find_element Selector.DASHBOARD s1 with
      | (FindOutcome.found _, s2) => (true, s2)
      | (FindOutcome.absent, s2) => (false, s2)
      | (FindOutcome.raisedNoSuch, s2) => (false, s2)
      | (FindOutcome.raisedOther, s2) => (false, s2)

/-- The function `get_error_message` only reads the page: the page state it returns is
the one it was given. -/
theorem get_error_message_reads_only (s : PageState) :
    (get_error_message s).2 = s := by
  unfold get_error_message find_element
  cases h : s.find Selector.ERROR_MESSAGE <;> simp [h] <;>
    cases h2 : s.find Selector.REQUIRED_ERROR <;> simp [h2]

/-- The function `is_login_successful` only reads the page. -/
theorem is_login_successful_reads_only (s : PageState) :
    (is_login_successful s).2 = s := by
  unfold is_login_successful find_element
  cases hm : get_error_message s with
  | mk msg s1 =>
    have hs1 : s1 = s := by
      have hr := get_error_message_reads_only s
      rw [hm] at hr
      exact hr
    rw [hs1]
    by_cases hne : msg = "" <;> simp [hne] <;>
      cases h : s.find Selector.DASHBOARD <;> simp [h]

/-- A page showing the general error banner only. -/
def errorBannerState : PageState :=
  { find := fun sel => match sel with
      | Selector.ERROR_MESSAGE => FindOutcome.found { text := "Invalid credentials" }
      | _ => FindOutcome.absent }

/-- A page showing only the required-field error. -/
def requiredOnlyState : PageState :=
  { find := fun sel => match sel with
      | Selector.REQUIRED_ERROR => FindOutcome.found { text := "Required" }
      | _ => FindOutcome.absent }

/-- A page where no lookup finds anything. -/
def blankState : PageState := { find := fun _ => FindOutcome.absent }

/-- A page showing the dashboard-only element and no errors. -/
def dashboardState : PageState :=
  { find := fun sel => match sel with
      | Selector.DASHBOARD => FindOutcome.found { text := "Dashboard" }
      | _ => FindOutcome.absent }

/-- C1: `get_error_message` returns the general error banner's text when that
element is found, otherwise the required-field error's text when that element
is found, otherwise the empty string; the general banner is checked first
(first match wins), and the operation is a pure read that always returns a
string — element absence is a normal return, not a fault. -/
theorem C1_get_error_message_first_match (s : PageState) :
    (∀ e, s.find Selector.ERROR_MESSAGE = FindOutcome.found e →
        (get_error_message s).1 = e.text) ∧
    (s.find Selector.ERROR_MESSAGE = FindOutcome.absent →
        (∀ e, s.find Selector.REQUIRED_ERROR = FindOutcome.found e →
            (get_error_message s).1 = e.text) ∧
        (s.find Selector.REQUIRED_ERROR = FindOutcome.absent →
            (get_error_message s).1 = "")) ∧
    (get_error_message s).2 = s := by
  refine ⟨?_, ?_, get_error_message_reads_only s⟩
  · intro e he
    unfold get_error_message find_element
    simp [he]
  · intro habs
    constructor
    · intro e he
      unfold get_error_message find_element
      simp [habs, he]
    · intro habs2
      unfold get_error_message find_element
      simp [habs, habs2]

/-- C1 witness: concrete pages exercising each branch of the theorem. -/
theorem C1_get_error_message_first_match_witness :
    (get_error_message errorBannerState).1 = "Invalid credentials" ∧
    (get_error_message requiredOnlyState).1 = "Required" ∧
    (get_error_message blankState).1 = "" :=
  ⟨(C1_get_error_message_first_match errorBannerState).1 _ rfl,
   ((C1_get_error_message_first_match requiredOnlyState).2.1 rfl).1 _ rfl,
   ((C1_get_error_message_first_match blankState).2.1 rfl).2 rfl⟩

/-- C2: `is_login_successful` is false whenever `get_error_message` is
non-empty; with no error message it is true exactly when the dashboard-only
element is found (absence, or a raised lookup, yields false, never a fault —
the operation always returns a boolean). -/
theorem C2_is_login_successful_spec (s : PageState) :
    ((get_error_message s).1 ≠ "" → (is_login_successful s).1 = false) ∧
    ((get_error_message s).1 = "" →
      ((is_login_successful s).1 = true ↔
        ∃ e, s.find Selector.DASHBOARD = FindOutcome.found e)) := by
  unfold is_login_successful find_element
  cases hm : get_error_message s with
  | mk msg s1 =>
    have hs1 : s1 = s := by
      have hr := get_error_message_reads_only s
      rw [hm] at hr
      exact hr
    rw [hs1]
    constructor
    · intro hne
      have hne2 : msg ≠ "" := hne
      simp [hne2]
    · intro he
      have he2 : msg = "" := he
      subst he2
      simp only [ne_eq, not_true_eq_false, if_false]
      cases h : s.find Selector.DASHBOARD <;> simp [h]

/-- C2 witness: error page gives false, dashboard page gives true. -/
theorem C2_is_login_successful_spec_witness :
    (is_login_successful errorBannerState).1 = false ∧
    (is_login_successful dashboardState).1 = true :=
  ⟨(C2_is_login_successful_spec errorBannerState).1 (by decide),
   ((C2_is_login_successful_spec dashboardState).2 rfl).2
     ⟨{ text := "Dashboard" }, rfl⟩⟩

/-- C9: after a failed login (first read of the error message non-empty),
reading the error message twice with no interleaved interaction yields the
same non-empty string both times — the operation only reads the page. -/
theorem C9_error_message_idempotent (s : PageState)
    (h : (get_error_message s).1 ≠ "") :
    (get_error_message (get_error_message s).2).1 = (get_error_message s).1 ∧
    (get_error_message (get_error_message s).2).1 ≠ "" := by
  rw [get_error_message_reads_only s]
  exact ⟨rfl, h⟩

/-- C9 witness: the invalid-credentials page read twice. -/
theorem C9_error_message_idempotent_witness :
    (get_error_message (get_error_message errorBannerState).2).1 =
      (get_error_message errorBannerState).1 ∧
    (get_error_message (get_error_message errorBannerState).2).1 ≠ "" :=
  C9_error_message_idempotent errorBannerState (by decide)

/-- A page where the general-error lookup raises a driver fault while the
dashboard element is present. -/
def faultWithDashboardState : PageState :=
  { find := fun sel => match sel with
      | Selector.ERROR_MESSAGE => FindOutcome.raisedOther
      | Selector.DASHBOARD => FindOutcome.found { text := "Dashboard" }
      | _ => FindOutcome.absent }

/-- A page where the dashboard lookup raises a driver fault. -/
def dashboardFaultState : PageState :=
  { find := fun sel => match sel with
      | Selector.DASHBOARD => FindOutcome.raisedOther
      | _ => FindOutcome.absent }

/-- C10 counterexample: on a page where reading the general error banner
raises a driver fault (not element absence) but the dashboard element is
found, `is_login_successful` returns true, not false — the internal fault is
swallowed by the nested `get_error_message` as an empty message, so not
every internally raised exception yields False. -/
theorem C10_counterexample_fault_yields_true :
    faultWithDashboardState.find Selector.ERROR_MESSAGE =
      FindOutcome.raisedOther ∧
    (is_login_successful faultWithDashboardState).1 = true :=
  ⟨rfl, rfl⟩

/-- C10 (amended): `is_login_successful` is total — it never propagates an
exception and only reads the page — and any exception raised in its own
dashboard lookup (element absence or a driver fault) yields False; an
exception inside the nested error-message read is swallowed there as an
empty message, after which a found dashboard element still yields True. -/
theorem C10_total_on_driver_faults (s : PageState) :
    (s.find Selector.DASHBOARD = FindOutcome.raisedOther →
        (is_login_successful s).1 = false) ∧
    (s.find Selector.DASHBOARD = FindOutcome.raisedNoSuch →
        (is_login_successful s).1 = false) ∧
    (is_login_successful s).2 = s := by
  refine ⟨?_, ?_, is_login_successful_reads_only s⟩ <;>
  · intro h
    unfold is_login_successful find_element
    cases hm : get_error_message s with
    | mk msg s1 =>
      have hs1 : s1 = s := by
        have hr := get_error_message_reads_only s
        rw [hm] at hr
        exact hr
      rw [hs1]
      by_cases hne : msg = "" <;> simp [hne, h]

/-- C10 witness: a dashboard-lookup driver fault on a concrete page. -/
theorem C10_total_on_driver_faults_witness :
    (is_login_successful dashboardFaultState).1 = false :=
  (C10_total_on_driver_faults dashboardFaultState).1 rfl

/-- Python's substring test `pat in s`, on character lists: `pat` occurs
contiguously somewhere in `s`. -/
def hasSubstr (pat : List Char) : List Char → Bool
  | [] => pat.isEmpty
  | c :: rest => pat.isPrefixOf (c :: rest) || hasSubstr pat rest

/-- The check `"/dashboard/index" in self.driver.current_url` from
`LoginPage.navigate` (`pages/login_page.py` line 42). -/
def urlIndicatesDashboard (url : String) : Bool :=
  hasSubstr "/dashboard/index".toList url.toList

/-- The browser as the login page object observes it through the driver:
the URL of the current page and what each locator lookup would produce. -/
structure Browser where
  current_url : String
  find : Selector → FindOutcome

/-- Faults a navigation can raise: the wait for the username field timed
out, or a click inside `logout` failed. -/
inductive NavFault
  | timeout
  | clickFailed (sel : Selector)
deriving DecidableEq

/-- The driver primitives `navigate`/`logout` use, as the web application
answers them: `get` is `driver.get` (the browser state after loading a URL),
`click` is the Page Object Base click — modelled from the spec
(`pages/base_page.py` is not in the sources): it waits for the element to be
clickable and dispatches the click, yielding the next browser state, or
fails. -/
structure DriverOps where
  get : String → Browser
  click : Selector → Browser → Except NavFault Browser

/-- The `WebDriverWait ... presence_of_element_located` outcome in
`navigate`: the wait succeeds exactly when the locator's lookup yields an
element before the timeout. -/
def presenceOf (b : Browser) (sel : Selector) : Bool :=
  match b.find sel with
  | FindOutcome.found _ => true
  | _ => false

/-- The function `LoginPage.logout` (`pages/login_page.py` lines 134-147): click the user
dropdown, then the logout link; any click failure propagates. -/
def logout (ops : DriverOps) (b : Browser) : Except NavFault Browser :=
  match ops.click Selector.USER_DROPDOWN b with
  | Except.ok b1 => ops.click Selector.LOGOUT_LINK b1
  | Except.error e => Except.error e

/-- The function `LoginPage.navigate` (`pages/login_page.py` lines 29-51): load the login
URL, wait for the username field (raising on timeout), and if the resulting
URL indicates an authenticated session, perform `logout`; all exceptions
propagate. -/
def navigate (ops : DriverOps) (url : String) : Except NavFault Browser :=
  let b := ops.get url
  if presenceOf b Selector.USERNAME then
    if urlIndicatesDashboard b.current_url then logout ops b
    else Except.ok b
  else Except.error NavFault.timeout

/-- C3: whatever the browser's authentication state, when `navigate` returns
normally the resulting page is Loaded and logged out — its URL does not
indicate an authenticated session and the username field is present — under
the web application's logout behaviour (a successful logout-link click lands
on the logged-out login page). -/
theorem C3_navigate_ends_logged_out (ops : DriverOps) (url : String)
    (hlogout : ∀ b b2, ops.click Selector.LOGOUT_LINK b = Except.ok b2 →
        urlIndicatesDashboard b2.current_url = false ∧
        presenceOf b2 Selector.USERNAME = true)
    (b2 : Browser) (h : navigate ops url = Except.ok b2) :
    urlIndicatesDashboard b2.current_url = false ∧
    presenceOf b2 Selector.USERNAME = true := by
  unfold navigate at h
  by_cases hp : presenceOf (ops.get url) Selector.USERNAME
  · rw [if_pos hp] at h
    by_cases hd : urlIndicatesDashboard (ops.get url).current_url
    · rw [if_pos hd] at h
      unfold logout at h
      cases hc : ops.click Selector.USER_DROPDOWN (ops.get url) with
      | ok b1 =>
        rw [hc] at h
        exact hlogout b1 b2 h
      | error e =>
        rw [hc] at h
        exact absurd h (by simp)
    · rw [if_neg hd] at h
      cases h
      exact ⟨Bool.of_not_eq_true hd, hp⟩
  · rw [if_neg hp] at h
    exact absurd h (by simp)

/-- The login page as loaded fresh: username field present, URL not an
authenticated one. -/
def loginBrowser : Browser :=
  { current_url := "x/auth/login",
    find := fun sel => match sel with
      | Selector.USERNAME => FindOutcome.found { text := "" }
      | _ => FindOutcome.absent }

/-- Concrete driver ops: loading any URL lands on the fresh login page, and
clicks fail (so no logout is observable — the logout hypothesis is vacuous). -/
def sampleOps : DriverOps :=
  { get := fun _ => loginBrowser,
    click := fun sel _ => Except.error (NavFault.clickFailed sel) }

/-- C3 witness: a concrete navigation that returns normally ends on the
logged-out, loaded login page. -/
theorem C3_navigate_ends_logged_out_witness :
    urlIndicatesDashboard loginBrowser.current_url = false ∧
    presenceOf loginBrowser Selector.USERNAME = true :=
  C3_navigate_ends_logged_out sampleOps "x/auth/login"
    (by intro b b2 h; exact absurd h (by simp [sampleOps])) loginBrowser rfl

/-- The function `os.path.join a b`. -/
def joinPath (a b : String) : String := a ++ "/" ++ b

/-- The function `os.path.basename`: the last `/`-separated component. -/
def bname (p : String) : String := (p.splitOn "/").getLastD ""

/-- The function `os.path.dirname`: everything before the last `/`-separated component. -/
def dname (p : String) : String :=
  String.intercalate "/" (p.splitOn "/").dropLast

/-- Observable side effects of provisioning and the test lifecycle. -/
inductive Eff
  | managedInstall (family : String)
  | chmod755 (path : String)
  | versionProbe (path : String)
  | addArgument (arg : String)
  | mkdirs (path : String)
  | createBrowser (kind : String)
  | setWindowSize (w h : Nat)
  | implicitlyWait (secs : Nat)
  | setPageLoadTimeout (secs : Nat)
  | maximizeWindow
  | deleteAllCookies
  | saveScreenshot (path : String)
  | attachToReport (name : String)
  | quitBrowser
deriving DecidableEq

/-- Modelled from the spec: per-browser option record from
`Config.get_browser_options` (`config/config.py` is not in the sources) —
named, typed fields with documented defaults: headless flag and optional
window size. -/
structure BrowserOptions where
  headless : Bool := false
  window_size : Option (Nat × Nat) := none
deriving DecidableEq

/-- Modelled from the spec: the configuration record (`config/config.py` is
not in the sources) — default browser kind, implicit element-wait timeout,
page-load timeout, screenshot directory, base URL, and the per-browser
option table. -/
structure Config where
  BROWSER : String
  IMPLICIT_WAIT : Nat
  PAGE_LOAD_TIMEOUT : Nat
  SCREENSHOT_DIR : String
  BASE_URL : String
  browser_options : String → BrowserOptions

/-- Outcome of `subprocess.run([driver, "--version"], ...)`: a completed
process with a return code, or a raised exception. -/
inductive ProbeOutcome
  | ret (code : Int)
  | raised
deriving DecidableEq

/-- The environment a chrome-driver-path resolution runs in: CI flag,
platform probes, the local `./chromedriver` binary's state, the version
probe's outcome, and what each managed download would yield (a path, or a
raised error message). -/
structure PathEnv where
  github_actions : Bool
  system : String
  machine : String
  cwd : String
  local_exists : Bool
  local_executable : Bool
  probe : ProbeOutcome
  chrome_install : Except String String
  chromium_install : Except String String
  driver_dir_listing : List String

/-- Failures of chrome-driver-path resolution: a managed download raised, or
the fixed local driver was missing or not working (the `RuntimeError` in
`DriverManager._get_chrome_driver_path`). -/
inductive ResolveErr
  | installFailed (msg : String)
  | localDriverNotWorking
deriving DecidableEq

/-- The function `os.path.abspath("./chromedriver")`: the fixed local driver path. -/
def local_driver_path (env : PathEnv) : String := joinPath env.cwd "chromedriver"

/-- The function `DriverManager._get_chrome_driver_path` (`utils/driver_manager.py` lines
26-67): in GitHub Actions return the managed download; on Darwin arm64 probe
the local `./chromedriver` (chmod 0o755 first when not executable), return it
when the version probe exits 0, and otherwise — including when the binary is
absent or its probe raised — raise `RuntimeError`; elsewhere return the
default managed download.  The trace records the side effects performed. -/
def dm_get_chrome_driver_path (env : PathEnv) :
    List Eff × Except ResolveErr String :=
  if env.github_actions then
    match env.chrome_install with
    | Except.ok p => ([Eff.managedInstall "chrome"], Except.ok p)
    | Except.error m =>
        ([Eff.managedInstall "chrome"], Except.error (ResolveErr.installFailed m))
  else if env.system == "Darwin" && env.machine == "arm64" then
    if env.local_exists then
      let effs :=
        (if env.local_executable then []
         else [Eff.chmod755 (local_driver_path env)]) ++
        [Eff.versionProbe (local_driver_path env)]
      match env.probe with
      | ProbeOutcome.ret code =>
        if code = 0 then (effs, Except.ok (local_driver_path env))
        else (effs, Except.error ResolveErr.localDriverNotWorking)
      | ProbeOutcome.raised => (effs, Except.error ResolveErr.localDriverNotWorking)
    else ([], Except.error ResolveErr.localDriverNotWorking)
  else
    match env.chrome_install with
    | Except.ok p => ([Eff.managedInstall "chrome"], Except.ok p)
    | Except.error m =>
        ([Eff.managedInstall "chrome"], Except.error (ResolveErr.installFailed m))

/-- The function `BaseTest._get_chrome_driver_path` (`tests/base_test.py` lines 50-113):
in GitHub Actions install the managed download, normalize the returned path
to the `chromedriver` executable in its directory when needed, chmod it
0o755 and return it; on Darwin arm64 probe the local `./chromedriver` as
above (warning on a raised probe), and on any local failure fall back to the
managed CHROMIUM-family download, raising only when that also fails;
elsewhere return the default managed download. -/
def bt_get_chrome_driver_path (env : PathEnv) :
    List Eff × Except ResolveErr String :=
  if env.github_actions then
    match env.chrome_install with
    | Except.error m =>
        ([Eff.managedInstall "chrome"], Except.error (ResolveErr.installFailed m))
    | Except.ok p =>
      let p2 := if bname p == "chromedriver" then p
        else
          match env.driver_dir_listing.find? (fun f => f == "chromedriver") with
          | some f => joinPath (dname p) f
          | none => p
      ([Eff.managedInstall "chrome", Eff.chmod755 p2], Except.ok p2)
  else if env.system == "Darwin" && env.machine == "arm64" then
    let attempt : List Eff × Option String :=
      if env.local_exists then
        let effs :=
          (if env.local_executable then []
           else [Eff.chmod755 (local_driver_path env)]) ++
          [Eff.versionProbe (local_driver_path env)]
        match env.probe with
        | ProbeOutcome.ret code =>
          if code = 0 then (effs, some (local_driver_path env)) else (effs, none)
        | ProbeOutcome.raised => (effs, none)
      else ([], none)
    match attempt with
    | (effs, some p) => (effs, Except.ok p)
    | (effs, none) =>
      match env.chromium_install with
      | Except.ok p => (effs ++ [Eff.managedInstall "chromium"], Except.ok p)
      | Except.error m =>
          (effs ++ [Eff.managedInstall "chromium"],
           Except.error (ResolveErr.installFailed m))
  else
    match env.chrome_install with
    | Except.ok p => ([Eff.managedInstall "chrome"], Except.ok p)
    | Except.error m =>
        ([Eff.managedInstall "chrome"], Except.error (ResolveErr.installFailed m))

/-- A local Darwin arm64 machine with no `./chromedriver`, where the managed
CHROMIUM download would succeed. -/
def darwinNoLocalEnv : PathEnv :=
  { github_actions := false, system := "Darwin", machine := "arm64",
    cwd := "/proj", local_exists := false, local_executable := false,
    probe := ProbeOutcome.raised,
    chrome_install := Except.ok "/managed/chromedriver",
    chromium_install := Except.ok "/managed/chromium-driver",
    driver_dir_listing := [] }

/-- C4 counterexample: on Darwin arm64 with the local probe failing,
`DriverManager._get_chrome_driver_path` signals the provisioning error
directly even though the CHROMIUM-family managed download would succeed —
only `BaseTest._get_chrome_driver_path` performs the fall-back the claim
describes. -/
theorem C4_counterexample_no_fallback :
    (dm_get_chrome_driver_path darwinNoLocalEnv).2 =
      Except.error ResolveErr.localDriverNotWorking ∧
    darwinNoLocalEnv.chromium_install = Except.ok "/managed/chromium-driver" ∧
    (bt_get_chrome_driver_path darwinNoLocalEnv).2 =
      Except.ok "/managed/chromium-driver" :=
  ⟨rfl, rfl, rfl⟩


/-- On Darwin arm64 outside CI, when the local probe fails (binary absent, a
non-zero exit, or a raised probe), `DriverManager`'s resolver signals the
provisioning error directly. -/
theorem dm_path_darwin_local_fail (env : PathEnv)
    (hgh : env.github_actions = false) (hsys : env.system = "Darwin")
    (hmach : env.machine = "arm64")
    (hfail : env.local_exists = false ∨ env.probe ≠ ProbeOutcome.ret 0) :
    (dm_get_chrome_driver_path env).2 =
      Except.error ResolveErr.localDriverNotWorking := by
  unfold dm_get_chrome_driver_path
  by_cases hex : env.local_exists
  · cases hp : env.probe with
    | ret code =>
      by_cases hc : code = 0
      · exfalso
        rcases hfail with hf | hf
        · simp [hex] at hf
        · exact hf (by rw [hp, hc])
      · simp [hgh, hsys, hmach, hex, hp, hc]
    | raised => simp [hgh, hsys, hmach, hex, hp]
  · have hex2 : env.local_exists = false := by simpa using hex
    simp [hgh, hsys, hmach, hex2]

/-- On Darwin arm64 outside CI, when the local probe fails, `BaseTest`'s
resolver returns whatever the CHROMIUM-family managed download yields. -/
theorem bt_path_darwin_local_fail (env : PathEnv)
    (hgh : env.github_actions = false) (hsys : env.system = "Darwin")
    (hmach : env.machine = "arm64")
    (hfail : env.local_exists = false ∨ env.probe ≠ ProbeOutcome.ret 0) :
    (bt_get_chrome_driver_path env).2 =
      (match env.chromium_install with
       | Except.ok p => Except.ok p
       | Except.error m => Except.error (ResolveErr.installFailed m)) := by
  unfold bt_get_chrome_driver_path
  by_cases hex : env.local_exists
  · cases hp : env.probe with
    | ret code =>
      by_cases hc : code = 0
      · exfalso
        rcases hfail with hf | hf
        · simp [hex] at hf
        · exact hf (by rw [hp, hc])
      · cases hci : env.chromium_install <;>
          simp [hgh, hsys, hmach, hex, hp, hc, hci]
    | raised =>
      cases hci : env.chromium_install <;>
        simp [hgh, hsys, hmach, hex, hp, hci]
  · have hex2 : env.local_exists = false := by simpa using hex
    cases hci : env.chromium_install <;>
      simp [hgh, hsys, hmach, hex2, hci]

/-- C4 (amended): both resolvers evaluate environment predicates in order,
first match wins — CI yields the managed download; else Darwin arm64 probes
the fixed local binary, fixing its permission bits when not executable and
requiring a zero-exit version probe; else the default managed download —
but on local-probe failure only `BaseTest`'s resolver falls back to the
CHROMIUM-family managed download before signalling a provisioning error,
while `DriverManager`'s signals the error directly with no fallback. -/
theorem C4_amended_resolution_policy (env : PathEnv) :
    (env.github_actions = true →
      (∀ p, env.chrome_install = Except.ok p →
          (dm_get_chrome_driver_path env).2 = Except.ok p) ∧
      (∀ p, env.chrome_install = Except.ok p →
          (bt_get_chrome_driver_path env).2 = Except.ok p ∨
          (bt_get_chrome_driver_path env).2 =
            Except.ok (joinPath (dname p) "chromedriver"))) ∧
    (env.github_actions = false → env.system = "Darwin" →
      env.machine = "arm64" → env.local_exists = true →
      env.probe = ProbeOutcome.ret 0 →
      (dm_get_chrome_driver_path env).2 = Except.ok (local_driver_path env) ∧
      (bt_get_chrome_driver_path env).2 = Except.ok (local_driver_path env) ∧
      (env.local_executable = false →
        Eff.chmod755 (local_driver_path env) ∈
          (dm_get_chrome_driver_path env).1 ∧
        Eff.chmod755 (local_driver_path env) ∈
          (bt_get_chrome_driver_path env).1)) ∧
    (env.github_actions = false → env.system = "Darwin" →
      env.machine = "arm64" →
      (env.local_exists = false ∨ env.probe ≠ ProbeOutcome.ret 0) →
      (dm_get_chrome_driver_path env).2 =
        Except.error ResolveErr.localDriverNotWorking ∧
      (∀ p, env.chromium_install = Except.ok p →
          (bt_get_chrome_driver_path env).2 = Except.ok p) ∧
      (∀ m, env.chromium_install = Except.error m →
          (bt_get_chrome_driver_path env).2 =
            Except.error (ResolveErr.installFailed m))) ∧
    (env.github_actions = false →
      (env.system == "Darwin" && env.machine == "arm64") = false →
      (∀ p, env.chrome_install = Except.ok p →
          (dm_get_chrome_driver_path env).2 = Except.ok p ∧
          (bt_get_chrome_driver_path env).2 = Except.ok p) ∧
      (∀ m, env.chrome_install = Except.error m →
          (dm_get_chrome_driver_path env).2 =
            Except.error (ResolveErr.installFailed m) ∧
          (bt_get_chrome_driver_path env).2 =
            Except.error (ResolveErr.installFailed m))) := by
  refine ⟨?_, ?_, ?_, ?_⟩
  · intro hgh
    constructor
    · intro p hp
      unfold dm_get_chrome_driver_path
      simp [hgh, hp]
    · intro p hp
      unfold bt_get_chrome_driver_path
      simp only [hgh, if_true]
      rw [hp]
      by_cases hb : bname p == "chromedriver"
      · simp [hb]
      · simp only [hb]
        cases hf : env.driver_dir_listing.find? (fun f => f == "chromedriver") with
        | some f =>
          have hf2 := List.find?_some hf
          have hf3 : f = "chromedriver" := by simpa using hf2
          subst hf3
          simp [hf]
        | none => simp [hf]
  · intro hgh hsys hmach hex hprobe
    refine ⟨?_, ?_, ?_⟩
    · unfold dm_get_chrome_driver_path
      simp [hgh, hsys, hmach, hex, hprobe]
    · unfold bt_get_chrome_driver_path
      simp [hgh, hsys, hmach, hex, hprobe]
    · intro hexec
      constructor
      · unfold dm_get_chrome_driver_path
        simp [hgh, hsys, hmach, hex, hprobe, hexec]
      · unfold bt_get_chrome_driver_path
        simp [hgh, hsys, hmach, hex, hprobe, hexec]
  · intro hgh hsys hmach hfail
    refine ⟨dm_path_darwin_local_fail env hgh hsys hmach hfail, ?_, ?_⟩
    · intro p hp
      rw [bt_path_darwin_local_fail env hgh hsys hmach hfail, hp]
    · intro m hm
      rw [bt_path_darwin_local_fail env hgh hsys hmach hfail, hm]
  · intro hgh hnd
    constructor
    · intro p hp
      constructor
      · unfold dm_get_chrome_driver_path
        simp [hgh, hnd, hp]
      · unfold bt_get_chrome_driver_path
        simp [hgh, hnd, hp]
    · intro m hm
      constructor
      · unfold dm_get_chrome_driver_path
        simp [hgh, hnd, hm]
      · unfold bt_get_chrome_driver_path
        simp [hgh, hnd, hm]

/-- A GitHub Actions CI environment with a successful managed download. -/
def ghEnv : PathEnv :=
  { github_actions := true, system := "Linux", machine := "x86_64",
    cwd := "/proj", local_exists := false, local_executable := false,
    probe := ProbeOutcome.raised,
    chrome_install := Except.ok "/wdm/chromedriver",
    chromium_install := Except.ok "/wdm/chromium-driver",
    driver_dir_listing := [] }

/-- A local Darwin arm64 machine whose `./chromedriver` exists, is not yet
executable, and answers the version probe with exit code 0. -/
def darwinLocalOkEnv : PathEnv :=
  { github_actions := false, system := "Darwin", machine := "arm64",
    cwd := "/proj", local_exists := true, local_executable := false,
    probe := ProbeOutcome.ret 0,
    chrome_install := Except.ok "/wdm/chromedriver",
    chromium_install := Except.ok "/wdm/chromium-driver",
    driver_dir_listing := [] }

/-- A default (Linux, non-CI) environment. -/
def defaultEnv : PathEnv :=
  { github_actions := false, system := "Linux", machine := "x86_64",
    cwd := "/proj", local_exists := false, local_executable := false,
    probe := ProbeOutcome.raised,
    chrome_install := Except.ok "/wdm/chromedriver",
    chromium_install := Except.ok "/wdm/chromium-driver",
    driver_dir_listing := [] }

/-- C4 witness: the amended policy applied to a CI environment, a Darwin
arm64 machine with a working local driver, a Darwin arm64 machine without
one, and a default environment. -/
theorem C4_amended_resolution_policy_witness :
    (dm_get_chrome_driver_path ghEnv).2 = Except.ok "/wdm/chromedriver" ∧
    (dm_get_chrome_driver_path darwinLocalOkEnv).2 =
      Except.ok (local_driver_path darwinLocalOkEnv) ∧
    (dm_get_chrome_driver_path darwinNoLocalEnv).2 =
      Except.error ResolveErr.localDriverNotWorking ∧
    (bt_get_chrome_driver_path darwinNoLocalEnv).2 =
      Except.ok "/managed/chromium-driver" ∧
    (dm_get_chrome_driver_path defaultEnv).2 = Except.ok "/wdm/chromedriver" :=
  ⟨((C4_amended_resolution_policy ghEnv).1 rfl).1 _ rfl,
   ((C4_amended_resolution_policy darwinLocalOkEnv).2.1 rfl rfl rfl rfl rfl).1,
   ((C4_amended_resolution_policy darwinNoLocalEnv).2.2.1 rfl rfl rfl
      (Or.inl rfl)).1,
   ((C4_amended_resolution_policy darwinNoLocalEnv).2.2.1 rfl rfl rfl
      (Or.inl rfl)).2.1 _ rfl,
   (((C4_amended_resolution_policy defaultEnv).2.2.2 rfl rfl).1 _ rfl).1⟩

/-- The function `BaseTest._get_unique_user_data_dir` (`tests/base_test.py` lines 35-48):
the profile directory name combines the pytest-xdist worker identifier
(environment variable `PYTEST_XDIST_WORKER`, defaulting to `gw0`) with a
freshly generated uuid, rooted in the system temp directory. -/
def bt_unique_user_data_dir (tmpdir : String) (workerVar : Option String)
    (uuid : String) : String :=
  joinPath tmpdir ("chrome-user-data-" ++ workerVar.getD "gw0" ++ "-" ++ uuid)

/-- The environment of one `DriverManager._create_chrome_driver` profile
creation: the system temp directory, the (present but unused) worker
identifier, the generated uuid, and the fresh random suffix `tempfile.mkdtemp`
appends to its prefix. -/
structure ProfileEnv where
  tmpdir : String
  worker : Option String
  uuid : String
  mkdtemp_suffix : String

/-- The function `DriverManager._create_chrome_driver`'s profile directory
(`utils/driver_manager.py` lines 118-120):
`tempfile.mkdtemp(prefix = "user-data-dir-" ++ uuid)` yields the prefix plus
the suffix `mkdtemp` freshly chooses, inside the system temp directory; the
worker identifier plays no part in the name. -/
def dm_user_data_dir (env : ProfileEnv) : String :=
  joinPath env.tmpdir ("user-data-dir-" ++ env.uuid ++ env.mkdtemp_suffix)

/-- C5 counterexample: two `DriverManager` acquisitions by distinct parallel
workers whose random components happen to coincide receive the same profile
directory name — the worker identifier is not combined into the name, so
distinctness of workers alone does not make the names distinct. -/
theorem C5_counterexample_worker_not_combined :
    dm_user_data_dir
      { tmpdir := "/tmp", worker := some "gw1", uuid := "u1",
        mkdtemp_suffix := "abc" } =
    dm_user_data_dir
      { tmpdir := "/tmp", worker := some "gw2", uuid := "u1",
        mkdtemp_suffix := "abc" } ∧
    (some "gw1" : Option String) ≠ some "gw2" :=
  ⟨rfl, by decide⟩

/-- Two strings with equal character data are equal. -/
theorem str_eq_of_data {a b : String} (h : a.data = b.data) : a = b := by
  cases a
  cases b
  exact congrArg String.mk h

/-- Appending distributes over `String.data`. -/
theorem str_data_append (a b : String) : (a ++ b).data = a.data ++ b.data := by
  cases a
  cases b
  rfl

/-- C5 (amended): `BaseTest`'s acquisition combines the worker identifier and
the uuid, so two acquisitions with equal-length uuids and either distinct
effective worker identifiers or distinct uuids get distinct directory names;
`DriverManager`'s acquisition uses only the uuid plus the fresh suffix
`mkdtemp` appends (ignoring the worker identifier), so its names are distinct
exactly when those random components differ. -/
theorem C5_amended_profile_uniqueness :
    (∀ tmp w1 u1 w2 u2, String.length u1 = String.length u2 →
        (Option.getD w1 "gw0" ≠ Option.getD w2 "gw0" ∨ u1 ≠ u2) →
        bt_unique_user_data_dir tmp w1 u1 ≠ bt_unique_user_data_dir tmp w2 u2) ∧
    (∀ e1 e2 : ProfileEnv, e1.tmpdir = e2.tmpdir →
        e1.uuid ++ e1.mkdtemp_suffix ≠ e2.uuid ++ e2.mkdtemp_suffix →
        dm_user_data_dir e1 ≠ dm_user_data_dir e2) := by
  constructor
  · intro tmp w1 u1 w2 u2 hlen hdiff heq
    have hd := congrArg String.data heq
    simp only [bt_unique_user_data_dir, joinPath, str_data_append,
      List.append_assoc] at hd
    have h1 := (List.append_right_inj _).mp hd
    have h2 := (List.append_right_inj _).mp h1
    have h3 := (List.append_right_inj _).mp h2
    have hlen1 : u1.data.length = u2.data.length := hlen
    have hlen2 : ("-".data ++ u1.data).length =
        ("-".data ++ u2.data).length := by
      simp [hlen1]
    rcases List.append_inj' h3 hlen2 with ⟨hv, hu⟩
    have hu2 := (List.append_right_inj _).mp hu
    rcases hdiff with hne | hne
    · exact hne (str_eq_of_data hv)
    · exact hne (str_eq_of_data hu2)
  · intro e1 e2 htmp hdiff heq
    have hd := congrArg String.data heq
    simp only [dm_user_data_dir, joinPath, str_data_append, htmp,
      List.append_assoc] at hd
    have h1 := (List.append_right_inj _).mp hd
    have h2 := (List.append_right_inj _).mp h1
    have h3 := (List.append_right_inj _).mp h2
    exact hdiff (str_eq_of_data (by rw [str_data_append, str_data_append, h3]))

/-- C5 witness: distinct workers with the same uuid, and the same worker
with distinct same-length uuids, get distinct `BaseTest` directories; and
distinct random components get distinct `DriverManager` directories. -/
theorem C5_amended_profile_uniqueness_witness :
    bt_unique_user_data_dir "/tmp" (some "gw1") "aaaa" ≠
      bt_unique_user_data_dir "/tmp" (some "gw2") "aaaa" ∧
    bt_unique_user_data_dir "/tmp" (some "gw1") "aaaa" ≠
      bt_unique_user_data_dir "/tmp" (some "gw1") "aaab" ∧
    dm_user_data_dir
        { tmpdir := "/tmp", worker := some "gw1", uuid := "aaaa",
          mkdtemp_suffix := "x1" } ≠
      dm_user_data_dir
        { tmpdir := "/tmp", worker := some "gw1", uuid := "aaaa",
          mkdtemp_suffix := "x2" } :=
  ⟨C5_amended_profile_uniqueness.1 "/tmp" (some "gw1") "aaaa" (some "gw2")
      "aaaa" (by decide) (Or.inl (by decide)),
   C5_amended_profile_uniqueness.1 "/tmp" (some "gw1") "aaaa" (some "gw1")
      "aaab" (by decide) (Or.inr (by decide)),
   C5_amended_profile_uniqueness.2
      { tmpdir := "/tmp", worker := some "gw1", uuid := "aaaa",
        mkdtemp_suffix := "x1" }
      { tmpdir := "/tmp", worker := some "gw1", uuid := "aaaa",
        mkdtemp_suffix := "x2" } rfl (by decide)⟩

/-- What each browser-specific creator would yield: a launched driver, or a
raised error message (covering driver-path resolution and browser launch
failures inside `_create_chrome_driver` / `_create_firefox_driver` /
`_create_edge_driver`). -/
structure LaunchEnv where
  chrome_launch : Except String Unit
  firefox_launch : Except String Unit
  edge_launch : Except String Unit

/-- Python's `str.lower()` on ASCII names, character by character. -/
def strToLower (s : String) : String := String.mk (s.data.map Char.toLower)

/-- Failures of `DriverManager.create_driver`: the requested browser kind is
unsupported (the `ValueError`), or the browser-specific creator raised. -/
inductive CreateErr
  | unsupported (name : String)
  | launchFailed (msg : String)
deriving DecidableEq

/-- The function `DriverManager.create_driver` (`utils/driver_manager.py` lines 69-103):
default the browser name to the lowercased configured kind, dispatch to the
matching creator — raising `ValueError` for any other kind — and, on
success, set the window size from the options (default 1920x1080), apply the
configured implicit wait and page-load timeout, and return; any failure is
logged and re-raised unchanged, with no retry. -/
def create_driver (cfg : Config) (env : LaunchEnv) (browser_name : Option String) :
    List Eff × Except CreateErr Unit :=
  let name := browser_name.getD (strToLower cfg.BROWSER)
  let opts := cfg.browser_options name
  let launch : List Eff × Except CreateErr Unit :=
    if name = "chrome" then
      ([Eff.createBrowser "chrome"], env.chrome_launch.mapError CreateErr.launchFailed)
    else if name = "firefox" then
      ([Eff.createBrowser "firefox"], env.firefox_launch.mapError CreateErr.launchFailed)
    else if name = "edge" then
      ([Eff.createBrowser "edge"], env.edge_launch.mapError CreateErr.launchFailed)
    else ([], Except.error (CreateErr.unsupported name))
  match launch with
  | (effs, Except.error e) => (effs, Except.error e)
  | (effs, Except.ok _) =>
    let ws := opts.window_size.getD (1920, 1080)
    (effs ++ [Eff.setWindowSize ws.1 ws.2, Eff.implicitlyWait cfg.IMPLICIT_WAIT,
      Eff.setPageLoadTimeout cfg.PAGE_LOAD_TIMEOUT], Except.ok ())

/-- Failures of `BaseTest.setup_method`: driver-path resolution failed, or
the browser launch raised. -/
inductive SetupErr
  | resolveFailed (e : ResolveErr)
  | launchFailed (msg : String)
deriving DecidableEq

/-- The function `BaseTest.setup_method` (`tests/base_test.py` lines 115-168): build the
Chrome options (headless variant by CI flag, sandbox/shm/gpu/notification
flags, fixed window-size argument, fresh unique user-data directory),
resolve the driver path with `BaseTest._get_chrome_driver_path`, launch
Chrome, then apply the configured implicit wait and page-load timeout,
maximize the window and clear cookies; any failure is logged and re-raised. -/
def setup_method (cfg : Config) (penv : PathEnv) (tmpdir : String)
    (workerVar : Option String) (uuid : String) (launch : Except String Unit) :
    List Eff × Except SetupErr Unit :=
  let headlessArg := if penv.github_actions then "--headless" else "--headless=new"
  let udir := bt_unique_user_data_dir tmpdir workerVar uuid
  let argEffs := [Eff.addArgument headlessArg, Eff.addArgument "--no-sandbox",
    Eff.addArgument "--disable-dev-shm-usage", Eff.addArgument "--disable-gpu",
    Eff.addArgument "--disable-notifications",
    Eff.addArgument "--window-size=1920,1080",
    Eff.mkdirs udir, Eff.addArgument ("--user-data-dir=" ++ udir)]
  match bt_get_chrome_driver_path penv with
  | (peffs, Except.error e) =>
      (argEffs ++ peffs, Except.error (SetupErr.resolveFailed e))
  | (peffs, Except.ok _) =>
    match launch with
    | Except.error m =>
        (argEffs ++ peffs ++ [Eff.createBrowser "chrome"],
         Except.error (SetupErr.launchFailed m))
    | Except.ok _ =>
        (argEffs ++ peffs ++ [Eff.createBrowser "chrome",
          Eff.implicitlyWait cfg.IMPLICIT_WAIT,
          Eff.setPageLoadTimeout cfg.PAGE_LOAD_TIMEOUT,
          Eff.maximizeWindow, Eff.deleteAllCookies], Except.ok ())

/-- C7: for any effective browser kind outside {chrome, firefox, edge},
`create_driver` fails with the unsupported-kind provisioning error rather
than returning a session; and any creator failure propagates unchanged as a
provisioning error — the failing outcome is returned as-is, with no retry. -/
theorem C7_create_driver_provision_errors (cfg : Config) (env : LaunchEnv)
    (bn : Option String) :
    (bn.getD (strToLower cfg.BROWSER) ∉ (["chrome", "firefox", "edge"] : List String) →
      (create_driver cfg env bn).2 =
        Except.error (CreateErr.unsupported (bn.getD (strToLower cfg.BROWSER)))) ∧
    (∀ m, bn.getD (strToLower cfg.BROWSER) = "chrome" →
        env.chrome_launch = Except.error m →
        (create_driver cfg env bn).2 =
          Except.error (CreateErr.launchFailed m)) ∧
    (∀ m, bn.getD (strToLower cfg.BROWSER) = "firefox" →
        env.firefox_launch = Except.error m →
        (create_driver cfg env bn).2 =
          Except.error (CreateErr.launchFailed m)) ∧
    (∀ m, bn.getD (strToLower cfg.BROWSER) = "edge" →
        env.edge_launch = Except.error m →
        (create_driver cfg env bn).2 =
          Except.error (CreateErr.launchFailed m)) := by
  refine ⟨?_, ?_, ?_, ?_⟩
  · intro hns
    simp only [List.mem_cons, List.not_mem_nil, or_false, not_or] at hns
    obtain ⟨hc, hf, he⟩ := hns
    unfold create_driver
    simp [hc, hf, he]
  · intro m hname hm
    unfold create_driver
    simp [hname, hm, Except.mapError]
  · intro m hname hm
    unfold create_driver
    by_cases hcn : bn.getD (strToLower cfg.BROWSER) = "chrome"
    · exact absurd (hcn.symm.trans hname) (by decide)
    · simp [hcn, hname, hm, Except.mapError]
  · intro m hname hm
    unfold create_driver
    by_cases hcn : bn.getD (strToLower cfg.BROWSER) = "chrome"
    · exact absurd (hcn.symm.trans hname) (by decide)
    · by_cases hfn : bn.getD (strToLower cfg.BROWSER) = "firefox"
      · exact absurd (hfn.symm.trans hname) (by decide)
      · simp [hcn, hfn, hname, hm, Except.mapError]

/-- The repository's configuration values as the spec documents them
(default browser `Chrome`, 10s implicit wait, 30s page load). -/
def cfg0 : Config :=
  { BROWSER := "Chrome", IMPLICIT_WAIT := 10, PAGE_LOAD_TIMEOUT := 30,
    SCREENSHOT_DIR := "screenshots", BASE_URL := "x/auth/login",
    browser_options := fun _ => {} }

/-- A launch environment whose Chrome creator raises. -/
def chromeFailEnv : LaunchEnv :=
  { chrome_launch := Except.error "session not created",
    firefox_launch := Except.ok (), edge_launch := Except.ok () }

/-- C7 witness: an unsupported kind and a failing chrome launch, including
the lowercased-default dispatch. -/
theorem C7_create_driver_provision_errors_witness :
    (create_driver cfg0 chromeFailEnv (some "safari")).2 =
      Except.error (CreateErr.unsupported "safari") ∧
    (create_driver cfg0 chromeFailEnv (some "chrome")).2 =
      Except.error (CreateErr.launchFailed "session not created") ∧
    (create_driver cfg0 chromeFailEnv none).2 =
      Except.error (CreateErr.launchFailed "session not created") :=
  ⟨(C7_create_driver_provision_errors cfg0 chromeFailEnv (some "safari")).1
      (by decide),
   (C7_create_driver_provision_errors cfg0 chromeFailEnv (some "chrome")).2.1
      "session not created" rfl rfl,
   (C7_create_driver_provision_errors cfg0 chromeFailEnv none).2.1
      "session not created" (by decide) rfl⟩

/-- A launch environment where every creator succeeds. -/
def launchOkEnv : LaunchEnv :=
  { chrome_launch := Except.ok (), firefox_launch := Except.ok (),
    edge_launch := Except.ok () }

/-- C8 counterexample: a successful `DriverManager.create_driver` acquisition
applies both timeouts but sets a fixed window size and never maximizes the
viewport — maximization happens only in `BaseTest.setup_method`. -/
theorem C8_counterexample_no_maximize :
    (create_driver cfg0 launchOkEnv (some "chrome")).2 = Except.ok () ∧
    Eff.maximizeWindow ∉ (create_driver cfg0 launchOkEnv (some "chrome")).1 := by
  constructor
  · rfl
  · decide

/-- C8 (amended): after a successful launch, `DriverManager.create_driver`
applies the configured implicit wait and page-load timeout and sets the
configured (or default 1920x1080) window size — without maximizing — while
`BaseTest.setup_method` applies both configured timeouts and maximizes the
viewport before returning. -/
theorem C8_amended_post_launch_config (cfg : Config) (env : LaunchEnv)
    (penv : PathEnv) (tmpdir : String) (workerVar : Option String)
    (uuid : String) (launch : Except String Unit) :
    ((create_driver cfg env (some "chrome")).2 = Except.ok () →
      Eff.implicitlyWait cfg.IMPLICIT_WAIT ∈
        (create_driver cfg env (some "chrome")).1 ∧
      Eff.setPageLoadTimeout cfg.PAGE_LOAD_TIMEOUT ∈
        (create_driver cfg env (some "chrome")).1 ∧
      Eff.setWindowSize
          ((cfg.browser_options "chrome").window_size.getD (1920, 1080)).1
          ((cfg.browser_options "chrome").window_size.getD (1920, 1080)).2 ∈
        (create_driver cfg env (some "chrome")).1 ∧
      Eff.maximizeWindow ∉ (create_driver cfg env (some "chrome")).1) ∧
    ((setup_method cfg penv tmpdir workerVar uuid launch).2 = Except.ok () →
      Eff.implicitlyWait cfg.IMPLICIT_WAIT ∈
        (setup_method cfg penv tmpdir workerVar uuid launch).1 ∧
      Eff.setPageLoadTimeout cfg.PAGE_LOAD_TIMEOUT ∈
        (setup_method cfg penv tmpdir workerVar uuid launch).1 ∧
      Eff.maximizeWindow ∈
        (setup_method cfg penv tmpdir workerVar uuid launch).1) := by
  constructor
  · intro hok
    cases hc : env.chrome_launch with
    | error m =>
      exfalso
      unfold create_driver at hok
      simp [hc, Except.mapError] at hok
    | ok _ =>
      unfold create_driver
      simp [hc, Except.mapError]
  · intro hok
    cases hp : bt_get_chrome_driver_path penv with
    | mk peffs pres =>
      cases pres with
      | error e =>
        exfalso
        unfold setup_method at hok
        simp [hp] at hok
      | ok p =>
        cases hl : launch with
        | error m =>
          exfalso
          unfold setup_method at hok
          simp [hp, hl] at hok
        | ok _ =>
          unfold setup_method
          simp [hp, hl]

/-- C8 witness: a concrete successful acquisition through both routines. -/
theorem C8_amended_post_launch_config_witness :
    Eff.implicitlyWait 10 ∈ (create_driver cfg0 launchOkEnv (some "chrome")).1 ∧
    Eff.maximizeWindow ∉ (create_driver cfg0 launchOkEnv (some "chrome")).1 ∧
    Eff.maximizeWindow ∈
      (setup_method cfg0 ghEnv "/tmp" (some "gw1") "u" (Except.ok ())).1 := by
  refine ⟨?_, ?_, ?_⟩
  · exact ((C8_amended_post_launch_config cfg0 launchOkEnv ghEnv "/tmp"
      (some "gw1") "u" (Except.ok ())).1 rfl).1
  · exact ((C8_amended_post_launch_config cfg0 launchOkEnv ghEnv "/tmp"
      (some "gw1") "u" (Except.ok ())).1 rfl).2.2.2
  · exact ((C8_amended_post_launch_config cfg0 launchOkEnv ghEnv "/tmp"
      (some "gw1") "u" (Except.ok ())).2 rfl).2.2

/-- The circumstances of one `teardown_method` run: whether the unittest
outcome attribute exists and records errors, whether a driver was created,
and which teardown steps would raise. -/
structure TeardownCtx where
  has_outcome : Bool
  outcome_errors : Bool
  has_driver : Bool
  quit_fails : Bool
  screenshot_save_fails : Bool
  attach_fails : Bool
deriving DecidableEq

/-- The error `teardown_method` re-raises when closing the browser fails. -/
inductive TeardownErr
  | quitFailed
deriving DecidableEq

/-- The function `BaseTest._take_screenshot` (`tests/base_test.py` lines 192-216): create
the screenshot directory, save the screenshot, attach it to the report; any
exception is caught and logged — the method always returns normally and
never fails its caller. -/
def bt_take_screenshot (cfg : Config) (ctx : TeardownCtx)
    (test_name timestamp : String) : List Eff :=
  let fname := test_name ++ "_" ++ timestamp ++ ".png"
  let path := joinPath cfg.SCREENSHOT_DIR fname
  if ctx.screenshot_save_fails then
    [Eff.mkdirs cfg.SCREENSHOT_DIR, Eff.saveScreenshot path]
  else
    [Eff.mkdirs cfg.SCREENSHOT_DIR, Eff.saveScreenshot path,
     Eff.attachToReport fname]

/-- The function `BaseTest.teardown_method` (`tests/base_test.py` lines 170-190): take a
screenshot when the recorded outcome holds errors, then quit the driver when
one exists; an exception from `driver.quit()` is logged and re-raised. -/
def teardown_method (cfg : Config) (ctx : TeardownCtx)
    (test_name timestamp : String) : List Eff × Except TeardownErr Unit :=
  let shotEffs :=
    if ctx.has_outcome && ctx.outcome_errors
    then bt_take_screenshot cfg ctx test_name timestamp else []
  if ctx.has_driver then
    if ctx.quit_fails then
      (shotEffs ++ [Eff.quitBrowser], Except.error TeardownErr.quitFailed)
    else (shotEffs ++ [Eff.quitBrowser], Except.ok ())
  else (shotEffs, Except.ok ())

/-- A teardown where the browser fails to close. -/
def quitFailCtx : TeardownCtx :=
  { has_outcome := false, outcome_errors := false, has_driver := true,
    quit_fails := true, screenshot_save_fails := false, attach_fails := false }

/-- A teardown after a passed test with a healthy browser. -/
def cleanCtx : TeardownCtx :=
  { has_outcome := false, outcome_errors := false, has_driver := true,
    quit_fails := false, screenshot_save_fails := false, attach_fails := false }

/-- A teardown after a recorded failure where saving the screenshot raises. -/
def shotFailCtx : TeardownCtx :=
  { has_outcome := true, outcome_errors := true, has_driver := true,
    quit_fails := false, screenshot_save_fails := true, attach_fails := false }

/-- C6 counterexample: when `driver.quit()` raises, `teardown_method` logs
and re-raises the error instead of swallowing it — a teardown error can
replace the original test result. -/
theorem C6_counterexample_teardown_raises :
    (teardown_method cfg0 quitFailCtx "test_login" "20240101_000000").2 =
      Except.error TeardownErr.quitFailed := rfl

/-- C6 (amended): teardown captures a screenshot only when the test recorded
a failure and quits the browser whenever one exists; screenshot-save and
report-attach errors are swallowed inside `_take_screenshot` (teardown still
returns normally), but a browser-close failure is logged and re-raised — it
is not swallowed. -/
theorem C6_amended_teardown_policy (cfg : Config) (ctx : TeardownCtx)
    (tn ts : String) :
    ((ctx.has_outcome && ctx.outcome_errors) = false →
      ∀ p, Eff.saveScreenshot p ∉ (teardown_method cfg ctx tn ts).1) ∧
    (ctx.has_driver = true →
      Eff.quitBrowser ∈ (teardown_method cfg ctx tn ts).1) ∧
    ((ctx.has_driver = false ∨ ctx.quit_fails = false) →
      (teardown_method cfg ctx tn ts).2 = Except.ok ()) ∧
    ((teardown_method cfg ctx tn ts).2 = Except.error TeardownErr.quitFailed ↔
      ctx.has_driver = true ∧ ctx.quit_fails = true) := by
  refine ⟨?_, ?_, ?_, ?_⟩
  · intro hno p
    unfold teardown_method
    by_cases hd : ctx.has_driver <;> by_cases hq : ctx.quit_fails <;>
      simp [hno, hd, hq]
  · intro hd
    unfold teardown_method
    by_cases hq : ctx.quit_fails <;> simp [hd, hq]
  · intro hok
    unfold teardown_method
    rcases hok with hd | hq
    · simp [hd]
    · by_cases hd : ctx.has_driver <;> simp [hd, hq]
  · unfold teardown_method
    by_cases hd : ctx.has_driver <;> by_cases hq : ctx.quit_fails <;>
      simp [hd, hq]

/-- C6 witness: a passed test tears down cleanly with no screenshot; a
failed screenshot save still lets teardown return normally; a quit failure
is re-raised. -/
theorem C6_amended_teardown_policy_witness :
    Eff.saveScreenshot "screenshots/t_x.png" ∉
      (teardown_method cfg0 cleanCtx "t" "x").1 ∧
    Eff.quitBrowser ∈ (teardown_method cfg0 cleanCtx "t" "x").1 ∧
    (teardown_method cfg0 shotFailCtx "t" "x").2 = Except.ok () ∧
    (teardown_method cfg0 quitFailCtx "t" "x").2 =
      Except.error TeardownErr.quitFailed :=
  ⟨(C6_amended_teardown_policy cfg0 cleanCtx "t" "x").1 rfl
      "screenshots/t_x.png",
   (C6_amended_teardown_policy cfg0 cleanCtx "t" "x").2.1 rfl,
   (C6_amended_teardown_policy cfg0 shotFailCtx "t" "x").2.2.1 (Or.inr rfl),
   (C6_amended_teardown_policy cfg0 quitFailCtx "t" "x").2.2.2.mpr ⟨rfl, rfl⟩⟩
